import Mathlib

/-!
Verification development for the RunPod remote-worker orchestrator
(`src/runpod/manager.py`, `src/runpod/utils.py`).

The Python code is embedded shallowly:

* Pure string manipulation (`str.strip`, `str.replace`, `in`, `startswith`,
  f-string command construction) is translated to Lean string functions.
* Interaction with the outside world (SSH probe, SSH command execution,
  control-plane GraphQL calls, SCP transfer, local extraction) is resolved
  by an explicit environment `Env` that fixes the outcome of every
  external call; each embedded operation returns its Python return value
  together with the list of externally visible events it performed,
  in order.
* The polling loop of `wait_for_pod_ready` (wall-clock bounded, fixed
  10-second sleeps) is modelled with explicit fuel, one unit per
  iteration; outcomes of per-iteration calls are indexed by fuel.
-/

namespace RunPod

/-- Characters stripped by Python `str.strip()` (ASCII whitespace set). -/
def isPySpace (c : Char) : Bool :=
  c == ' ' || c == '\t' || c == '\n' || c == '\r' || c == Char.ofNat 11 || c == Char.ofNat 12

/-- Python `s.strip()`: remove leading and trailing whitespace. -/
def pyStrip (s : String) : String :=
  String.mk (((s.toList.dropWhile isPySpace).reverse.dropWhile isPySpace).reverse)

/-- Python `s.startswith(pre)`. -/
def pyStartsWith (s pre : String) : Bool :=
  pre.toList.isPrefixOf s.toList

/-- Python `needle in hay` on strings: substring containment. -/
def pyIn (needle hay : String) : Bool :=
  hay.toList.tails.any (fun t => needle.toList.isPrefixOf t)

/-- Replace every occurrence of the character `pat` by the string `rep`. -/
def pyReplaceChar (pat : Char) (rep : List Char) : List Char → List Char
  | [] => []
  | c :: cs =>
    if c = pat then rep ++ pyReplaceChar pat rep cs else c :: pyReplaceChar pat rep cs

/-- Python `s.replace("'", "'\\''")` — the shell single-quote escaping used
throughout `utils.py`. -/
def shq (s : String) : String :=
  String.mk (pyReplaceChar '\'' "'\\''".toList s.toList)

/-- Python `s.splitlines()[0]`: the text before the first line break. -/
def firstLine (s : String) : String :=
  String.mk (s.toList.takeWhile (fun c => c != '\n' && c != '\r'))

/-- Python `pathlib.Path(s).name` for slash-separated paths: the text after
the last `/`. -/
def baseName (s : String) : String :=
  String.mk ((s.toList.reverse.takeWhile (fun c => c != '/')).reverse)

/-- Outcome of one `paramiko` SSH session in
`RunPodManager.execute_ssh_command` (`manager.py:256-296`): whether
`ssh.connect` succeeds (`connectOk`, with the exception text `connectErr`
otherwise), the raw remote stdout/stderr, whether
`stdout.channel.recv_exit_status()` returns without raising
(`statusAvail`), and the remote exit status it reports. -/
structure ExecOutcome where
  connectOk : Bool
  connectErr : String
  stdout : String
  stderr : String
  statusAvail : Bool
  exitStatus : Nat
  deriving DecidableEq

/-- `RunPodManager.execute_ssh_command` (`manager.py:256-296`).
Returns the Python `Tuple[bool, str, str]` = (success, stdout, stderr):
missing host/port short-circuits; a connect exception returns
`(False, "", str(e))`; otherwise the exit status is read — defaulting to
`0` when `recv_exit_status` raises — and success is `exit_status == 0`. -/
def execute_ssh_command (hostPort : Bool) (o : ExecOutcome) : Bool × String × String :=
  if !hostPort then (false, "", "No SSH connection details available")
  else if !o.connectOk then (false, "", o.connectErr)
  else
    let exit_status := if o.statusAvail then o.exitStatus else 0
    (exit_status == 0, o.stdout, o.stderr)

/-- Externally visible events of the embedded operations: an SSH
reachability probe with its outcome, a control-plane GraphQL call
(`get_pod_info` / `start_pod` / `stop_pod`), an SSH command execution,
an SCP download, and the local filesystem actions of the download
pipeline. -/
inductive Event where
  | probe (ok : Bool)
  | cpDescribe
  | cpStart
  | cpStop
  | sshCmd (cmd : String)
  | scpDownload (remote loc : String) (ok : Bool)
  | mkLocalDir (path : String)
  | localExtract (ok : Bool)
  | localRemove (path : String)
  deriving DecidableEq

/-- Environment fixing the outcome of every external interaction:
`hostPort` — SSH host and port are configured; `probeFast` — outcome of
the `test_ssh_connection` call at the top of `ensure_pod_running`;
`probeReady` — outcome of the fast-path probe inside
`wait_for_pod_ready`; `probeLoop n` / `describe n` — outcomes of the
probe and of `get_pod_info` in the polling-loop iteration with remaining
fuel `n` (`describe` is `none` when `get_pod_info` returns no info,
`some b` when it returns info whose `runtime` field is truthy iff `b`);
`startOk` — outcome of `start_pod`; `exec c` — the SSH session outcome
for command `c`; `download r l` — outcome of `manager.download_file`;
`extractOk` — whether local `tarfile` extraction succeeds. -/
structure Env where
  hostPort : Bool
  probeFast : Bool
  probeReady : Bool
  probeLoop : Nat → Bool
  describe : Nat → Option Bool
  startOk : Bool
  exec : String → ExecOutcome
  download : String → String → Bool
  extractOk : Bool

/-- One SSH command execution as issued by the utilities: the manager's
`execute_ssh_command` instantiated at the environment's session outcome
for that command string. -/
def runCmd (env : Env) (cmd : String) : Bool × String × String :=
  execute_ssh_command env.hostPort (env.exec cmd)

/-- The polling loop of `wait_for_pod_ready` (`manager.py:192-221`):
each iteration calls `get_pod_info`; if info is present and its `runtime`
is truthy and SSH details are configured, the SSH connection is probed and
success ends the loop with `True`; every other case sleeps and retries
until the wall-clock budget (here: fuel) is exhausted, yielding `False`. -/
def wfpLoop (env : Env) : Nat → Bool × List Event
  | 0 => (false, [])
  | n + 1 =>
    match env.describe n with
    | none =>
      let r := wfpLoop env n
      (r.1, Event.cpDescribe :: r.2)
    | some false =>
      let r := wfpLoop env n
      (r.1, Event.cpDescribe :: r.2)
    | some true =>
      if env.hostPort && env.probeLoop n then
        (true, [Event.cpDescribe, Event.probe true])
      else if env.hostPort then
        let r := wfpLoop env n
        (r.1, Event.cpDescribe :: Event.probe false :: r.2)
      else
        let r := wfpLoop env n
        (r.1, Event.cpDescribe :: r.2)

/-- `RunPodManager.wait_for_pod_ready` (`manager.py:172-223`): first the
fast path — if `test_ssh_connection()` succeeds the pod is considered
ready without any control-plane call; otherwise the polling loop runs
with the given fuel (timeout divided by the 10-second sleep). -/
def wait_for_pod_ready (env : Env) (fuel : Nat) : Bool × List Event :=
  if env.probeReady then (true, [Event.probe true])
  else
    let r := wfpLoop env fuel
    (r.1, Event.probe false :: r.2)

/-- `ensure_pod_running` (`utils.py:17-36`): if the SSH probe succeeds,
call `wait_for_pod_ready(timeout=30)` (3 poll iterations of fuel) to
populate the pod context and return `True` regardless of its result;
otherwise, when `auto_start` is set, call `start_pod` and on its success
return the result of `wait_for_pod_ready(timeout=300)` (30 iterations);
in every other case return `False`. -/
def ensure_pod_running (env : Env) (auto_start : Bool) : Bool × List Event :=
  if env.probeFast then
    let r := wait_for_pod_ready env 3
    (true, Event.probe true :: r.2)
  else if auto_start then
    if env.startOk then
      let r := wait_for_pod_ready env 30
      (r.1, Event.probe false :: Event.cpStart :: r.2)
    else (false, [Event.probe false, Event.cpStart])
  else (false, [Event.probe false])

/-- The remote command built by `clear_remote_directory`
(`utils.py:235`): `bash -lc 'set -e; mkdir -p <q>; rm -rf <q>/*'` with
the single-quote-escaped directory `<q>`. -/
def buildClearCmd (d : String) : String :=
  "bash -lc 'set -e; mkdir -p " ++ shq d ++ "; rm -rf " ++ shq d ++ "/*'"

/-- `clear_remote_directory` (`utils.py:222-239`): requires a running pod,
strips the argument, refuses anything not starting with `/workspace`,
then issues the single mkdir-and-remove-contents command and returns its
success. -/
def clear_remote_directory (env : Env) (remote_dir : String) : Bool × List Event :=
  let e := ensure_pod_running env false
  if !e.1 then (false, e.2)
  else
    let d := pyStrip remote_dir
    if !(pyStartsWith d "/workspace") then (false, e.2)
    else
      let cmd := buildClearCmd d
      let r := runCmd env cmd
      (r.1, e.2 ++ [Event.sshCmd cmd])

/-- The existence-check command of `download_and_extract_outputs`
(`utils.py:297`). -/
def checkCmd (dq : String) : String :=
  "test -d '" ++ dq ++ "' && echo OK || echo MISSING"

/-- The parent-directory resolution command (`utils.py:309`). -/
def parentCmd (dq : String) : String :=
  "python3 -c 'import os,sys; p=\"" ++ dq ++ "\"; import pathlib; q=str(pathlib.Path(p).parent); print(q)'"

/-- The leaf-name resolution command (`utils.py:315`). -/
def nameCmd (dq : String) : String :=
  "python3 -c 'import pathlib; print(pathlib.Path(\"" ++ dq ++ "\").name)'"

/-- The remote archive creation command (`utils.py:322`). -/
def tarCmd (parent archive leaf : String) : String :=
  "tar -C '" ++ parent ++ "' -czf '" ++ archive ++ "' '" ++ leaf ++ "'"

/-- The generated remote archive path
`/workspace/<prefix>_<timestamp>.tar.gz` (`utils.py:305`). -/
def remoteArchiveName (pre ts : String) : String :=
  "/workspace/" ++ pre ++ "_" ++ ts ++ ".tar.gz"

/-- `download_and_extract_outputs` (`utils.py:276-359`), with the
timestamp `ts` passed explicitly. Steps, each aborting with `None` on
failure: ensure the pod runs; check the (stripped, quoted) remote
directory exists (`'OK' in stdout`); resolve remote parent and leaf name
(non-empty stripped stdout required, first line taken); create the remote
archive; SCP it to `./<archive basename>`; create the local
`<base>/batch_<ts>` directory; extract (on failure the local archive is
still removed by the `finally` block but the remote archive is not);
on full success remove the local archive, issue `rm -f <remote archive>`
and return the local batch directory. -/
def download_and_extract_outputs (env : Env) (remote_dir local_base_dir archive_name_prefix ts : String) :
    Option String × List Event :=
  let e := ensure_pod_running env false
  if !e.1 then (none, e.2) else
  let dq := shq (pyStrip remote_dir)
  let c1 := runCmd env (checkCmd dq)
  let t1 := e.2 ++ [Event.sshCmd (checkCmd dq)]
  if !c1.1 || !(pyIn "OK" c1.2.1) then (none, t1) else
  let remote_archive := remoteArchiveName archive_name_prefix ts
  let c2 := runCmd env (parentCmd dq)
  let t2 := t1 ++ [Event.sshCmd (parentCmd dq)]
  if !c2.1 || (pyStrip c2.2.1 == "") then (none, t2) else
  let remote_parent := firstLine (pyStrip c2.2.1)
  let c3 := runCmd env (nameCmd dq)
  let t3 := t2 ++ [Event.sshCmd (nameCmd dq)]
  if !c3.1 || (pyStrip c3.2.1 == "") then (none, t3) else
  let remote_name := firstLine (pyStrip c3.2.1)
  let c4 := runCmd env (tarCmd remote_parent remote_archive remote_name)
  let t4 := t3 ++ [Event.sshCmd (tarCmd remote_parent remote_archive remote_name)]
  if !c4.1 then (none, t4) else
  let local_archive := "./" ++ baseName remote_archive
  let okD := env.download remote_archive local_archive
  let t5 := t4 ++ [Event.scpDownload remote_archive local_archive okD]
  if !okD then (none, t5) else
  let target_dir := local_base_dir ++ "/batch_" ++ ts
  let t6 := t5 ++ [Event.mkLocalDir target_dir]
  if !env.extractOk then
    (none, t6 ++ [Event.localExtract false, Event.localRemove local_archive])
  else
    let t7 := t6 ++ [Event.localExtract true, Event.localRemove local_archive]
    (some target_dir, t7 ++ [Event.sshCmd ("rm -f " ++ remote_archive)])

/-- One immediate child of the local base directory, as seen by
`prune_local_batches`: its name, whether it is a directory, its
modification time, and whether `shutil.rmtree(path, ignore_errors=True)`
actually succeeds in deleting it (with `ignore_errors=True` a failed
deletion is silent and the directory survives). -/
structure DirEntry where
  name : String
  isDir : Bool
  mtime : Nat
  removable : Bool
  deriving DecidableEq

/-- Stable insertion keeping the list sorted by `mtime` descending; a new
element goes after existing elements with an equal key, matching the
stability of Python `list.sort(key=..., reverse=True)`. -/
def insertDesc (e : DirEntry) : List DirEntry → List DirEntry
  | [] => [e]
  | x :: xs => if x.mtime < e.mtime then e :: x :: xs else x :: insertDesc e xs

/-- Python `candidates.sort(key=lambda p: p.stat().st_mtime, reverse=True)`. -/
def sortByMtimeDesc (l : List DirEntry) : List DirEntry :=
  l.foldl (fun acc e => insertDesc e acc) []

/-- The candidate filter of `prune_local_batches` (`utils.py:249`):
immediate children that are directories whose name starts with `batch_`. -/
def batchCandidates (entries : List DirEntry) : List DirEntry :=
  entries.filter (fun p => p.isDir && pyStartsWith p.name "batch_")

/-- `prune_local_batches` (`utils.py:241-261`), with the base directory
given as `none` (does not exist) or `some entries` (its children in
iteration order). Candidates are sorted newest-first; `candidates[keep:]`
is deleted when `keep >= 0`, nothing when `keep < 0`. Each deletion uses
`shutil.rmtree(path, ignore_errors=True)`, which never raises, so the
returned counter is incremented for every element of `to_remove`
whether or not the directory was actually deleted. The result pairs the
returned count with the names of the directories actually deleted. -/
def prune_local_batches (base : Option (List DirEntry)) (keep : Int) : Nat × List String :=
  match base with
  | none => (0, [])
  | some entries =>
    let sorted := sortByMtimeDesc (batchCandidates entries)
    let to_remove := if 0 ≤ keep then sorted.drop keep.toNat else []
    (to_remove.length, (to_remove.filter (fun p => p.removable)).map (fun p => p.name))

/-! ### Helper lemmas and concrete environments -/

/-- Events a lifecycle operation may emit: probes and control-plane
describe calls. -/
def Event.isLifecycle : Event → Bool
  | Event.probe _ => true
  | Event.cpDescribe => true
  | _ => false

theorem wfpLoop_events_lifecycle (env : Env) :
    ∀ n b t, wfpLoop env n = (b, t) → ∀ e ∈ t, e.isLifecycle = true := by
  intro n
  induction n with
  | zero =>
    intro b t h e he
    simp only [wfpLoop] at h
    injection h with h1 h2
    subst h2
    simp at he
  | succ n ih =>
    intro b t h e he
    simp only [wfpLoop] at h
    split at h
    · injection h with h1 h2
      subst h2
      rcases List.mem_cons.mp he with rfl | h3
      · rfl
      · exact ih _ _ rfl e h3
    · injection h with h1 h2
      subst h2
      rcases List.mem_cons.mp he with rfl | h3
      · rfl
      · exact ih _ _ rfl e h3
    · split at h
      · injection h with h1 h2
        subst h2
        rcases List.mem_cons.mp he with rfl | h3
        · rfl
        · simp only [List.mem_singleton] at h3; subst h3; rfl
      · split at h
        · injection h with h1 h2
          subst h2
          rcases List.mem_cons.mp he with rfl | h3
          · rfl
          · rcases List.mem_cons.mp h3 with rfl | h4
            · rfl
            · exact ih _ _ rfl e h4
        · injection h with h1 h2
          subst h2
          rcases List.mem_cons.mp he with rfl | h3
          · rfl
          · exact ih _ _ rfl e h3

theorem wait_events_lifecycle (env : Env) (fuel : Nat) (b : Bool) (t : List Event)
    (h : wait_for_pod_ready env fuel = (b, t)) : ∀ e ∈ t, e.isLifecycle = true := by
  simp only [wait_for_pod_ready] at h
  split at h <;> (injection h with h1 h2; subst h2; intro e he)
  · simp only [List.mem_singleton] at he; subst he; rfl
  · rcases List.mem_cons.mp he with rfl | h3
    · rfl
    · exact wfpLoop_events_lifecycle env fuel _ _ rfl e h3

theorem ensure_false_events_lifecycle (env : Env) (b : Bool) (t : List Event)
    (h : ensure_pod_running env false = (b, t)) : ∀ e ∈ t, e.isLifecycle = true := by
  simp only [ensure_pod_running, Bool.false_eq_true, if_false] at h
  split at h <;> (injection h with h1 h2; subst h2; intro e he)
  · rcases List.mem_cons.mp he with rfl | h3
    · rfl
    · exact wait_events_lifecycle env 3 _ _ rfl e h3
  · simp only [List.mem_singleton] at he; subst he; rfl

theorem length_insertDesc (e : DirEntry) : ∀ l, (insertDesc e l).length = l.length + 1 := by
  intro l
  induction l with
  | nil => rfl
  | cons x xs ih =>
    simp only [insertDesc]
    split
    · simp
    · simp [ih]

theorem length_sortByMtimeDesc (l : List DirEntry) :
    (sortByMtimeDesc l).length = l.length := by
  suffices h : ∀ acc : List DirEntry,
      (l.foldl (fun acc e => insertDesc e acc) acc).length = acc.length + l.length by
    simpa [sortByMtimeDesc] using h []
  induction l with
  | nil => intro acc; simp
  | cons x xs ih =>
    intro acc
    simp only [List.foldl_cons, ih, length_insertDesc, List.length_cons]
    omega

/-- Environment of a reachable worker: every probe succeeds, every SSH
command connects and exits 0 with empty output, transfers succeed. -/
def envUp : Env :=
  { hostPort := true, probeFast := true, probeReady := true, probeLoop := fun _ => true,
    describe := fun _ => some true, startOk := true,
    exec := fun _ => ⟨true, "", "", "", true, 0⟩,
    download := fun _ _ => true, extractOk := true }

/-- Environment of an unreachable worker: both fast-path probes fail. -/
def envDown : Env :=
  { envUp with probeFast := false, probeReady := false }

/-- Reachable worker on which every SSH command prints `MISSING` (the
existence check of a non-existent remote directory). -/
def envMissing : Env :=
  { envUp with exec := fun _ => ⟨true, "", "MISSING\n", "", true, 0⟩ }

/-- Reachable worker on which every SSH command prints `OK` but the SCP
download fails. -/
def envOkNoDownload : Env :=
  { envUp with exec := fun _ => ⟨true, "", "OK\n", "", true, 0⟩,
               download := fun _ _ => false }

/-- Reachable worker on which every SSH command prints `OK` and all
transfers and extractions succeed. -/
def envOkFull : Env :=
  { envUp with exec := fun _ => ⟨true, "", "OK\n", "", true, 0⟩ }

/-- Five batch directories with distinct modification times, in local
iteration order (oldest first). -/
def entriesC6 : List DirEntry :=
  [⟨"batch_a", true, 1, true⟩, ⟨"batch_b", true, 2, true⟩, ⟨"batch_c", true, 3, true⟩,
   ⟨"batch_d", true, 4, true⟩, ⟨"batch_e", true, 5, true⟩]

/-! ### Claim theorems -/

/-- C1, counterexample. The claim says the result of `execute` carries the
remote exit code as a field. The code returns only the triple
`(exit_status == 0, stdout, stderr)`: two completed runs that differ only
in their exit codes (3 versus 5) yield identical results, so no function
of the result can recover the exit code. -/
theorem execute_result_carries_no_exit_code :
    (execute_ssh_command true ⟨true, "", "out", "err", true, 3⟩ =
      execute_ssh_command true ⟨true, "", "out", "err", true, 5⟩) ∧
    ¬ ∃ f : Bool × String × String → Nat,
        ∀ o : ExecOutcome, o.connectOk = true → o.statusAvail = true →
          f (execute_ssh_command true o) = o.exitStatus := by
  refine ⟨rfl, ?_⟩
  rintro ⟨f, hf⟩
  have h3 := hf ⟨true, "", "out", "err", true, 3⟩ rfl rfl
  have h5 := hf ⟨true, "", "out", "err", true, 5⟩ rfl rfl
  rw [show execute_ssh_command true ⟨true, "", "out", "err", true, 3⟩ =
        execute_ssh_command true ⟨true, "", "out", "err", true, 5⟩ from rfl] at h3
  exact absurd (h3.symm.trans h5) (by decide)

/-- C1, amended. For every command whose remote process runs to completion
and exits with status 3, `execute_ssh_command` returns success `false`
with stdout and stderr exactly as emitted by the remote process; the
numeric exit code itself is not part of the returned triple. -/
theorem execute_exit3_reports_failure (o : ExecOutcome)
    (h1 : o.connectOk = true) (h2 : o.statusAvail = true) (h3 : o.exitStatus = 3) :
    execute_ssh_command true o = (false, o.stdout, o.stderr) := by
  simp [execute_ssh_command, h1, h2, h3]

/-- C1, witness: a concrete completed run with exit status 3. -/
theorem execute_exit3_reports_failure_w :
    execute_ssh_command true ⟨true, "", "out3", "err3", true, 3⟩ = (false, "out3", "err3") :=
  execute_exit3_reports_failure ⟨true, "", "out3", "err3", true, 3⟩ rfl rfl rfl

/-- C3. When connection and dispatch succeed but
`stdout.channel.recv_exit_status()` raises, the exit status defaults to 0
and the result reports success `true` (with the captured stdout/stderr). -/
theorem execute_lost_status_defaults_success (o : ExecOutcome)
    (h1 : o.connectOk = true) (h2 : o.statusAvail = false) :
    execute_ssh_command true o = (true, o.stdout, o.stderr) := by
  simp [execute_ssh_command, h1, h2]

/-- C3, witness: a concrete run whose status read raises. -/
theorem execute_lost_status_defaults_success_w :
    execute_ssh_command true ⟨true, "", "o", "e", false, 7⟩ = (true, "o", "e") :=
  execute_lost_status_defaults_success ⟨true, "", "o", "e", false, 7⟩ rfl rfl

/-- C6. Over five batch directories with distinct modification times,
`prune_local_batches` with `keep = 2` reports three removals — exactly the
three oldest (`batch_c`, `batch_b`, `batch_a`), retaining the two
newest — and for every base directory `keep = -1` removes nothing. -/
theorem prune_keeps_two_newest_and_negative_keeps_all :
    (prune_local_batches (some entriesC6) 2 = (3, ["batch_c", "batch_b", "batch_a"])) ∧
    ∀ base : Option (List DirEntry), prune_local_batches base (-1) = (0, []) := by
  refine ⟨by decide, ?_⟩
  intro base
  cases base with
  | none => rfl
  | some entries => simp [prune_local_batches]

/-- C7, counterexample. A single batch candidate whose deletion fails
(`shutil.rmtree(..., ignore_errors=True)` swallows the error and leaves
the directory) is still counted: `prune` with `keep = 0` returns count 1
while the list of actually removed directories is empty, so the returned
count differs from the number of directories actually removed, contrary
to the claim that an errored directory is counted as not-removed. -/
theorem prune_counts_failed_deletion_as_removed :
    (prune_local_batches (some [⟨"batch_x", true, 0, false⟩]) 0).1 = 1 ∧
    (prune_local_batches (some [⟨"batch_x", true, 0, false⟩]) 0).2 = [] ∧
    (prune_local_batches (some [⟨"batch_x", true, 0, false⟩]) 0).1 ≠
      ((prune_local_batches (some [⟨"batch_x", true, 0, false⟩]) 0).2).length :=
  ⟨by decide, by decide, by decide⟩

/-- C7, amended. The returned count equals the number of batch candidates
beyond the keep threshold (`max(candidates - keep, 0)` for `keep ≥ 0`,
`0` for negative `keep`), regardless of whether the individual deletions
succeed: a per-directory deletion error is swallowed and the directory is
nevertheless counted as removed. -/
theorem prune_count_ignores_deletion_outcome (entries : List DirEntry) (keep : Int) :
    (prune_local_batches (some entries) keep).1 =
      if 0 ≤ keep then (batchCandidates entries).length - keep.toNat else 0 := by
  simp only [prune_local_batches]
  split
  · rw [List.length_drop, length_sortByMtimeDesc]
  · rfl

/-- C9. With `auto_start = false`, `ensure_pod_running` never invokes the
control-plane start or stop operation, whatever the probe and describe
outcomes; and when the fast-path probe fails it returns failure
immediately, having only probed. -/
theorem ensure_no_autostart_never_starts_or_stops (env : Env) :
    Event.cpStart ∉ (ensure_pod_running env false).2 ∧
    Event.cpStop ∉ (ensure_pod_running env false).2 ∧
    (env.probeFast = false → ensure_pod_running env false = (false, [Event.probe false])) := by
  have hl := ensure_false_events_lifecycle env (ensure_pod_running env false).1
    (ensure_pod_running env false).2 rfl
  refine ⟨fun hm => ?_, fun hm => ?_, fun hp => ?_⟩
  · have := hl _ hm
    simp [Event.isLifecycle] at this
  · have := hl _ hm
    simp [Event.isLifecycle] at this
  · simp [ensure_pod_running, hp]

/-- C9, witness: with an unreachable worker and `auto_start = false` the
call fails after the single probe. -/
theorem ensure_no_autostart_never_starts_or_stops_w :
    ensure_pod_running envDown false = (false, [Event.probe false]) :=
  (ensure_no_autostart_never_starts_or_stops envDown).2.2 rfl

/-- C5. Whenever the fast-path SSH probe succeeds, `ensure_pod_running`
returns ready-true — whatever the control-plane outcomes (`describe`
failing or erroring, `start` unavailable) fixed by the environment — and
when the probe (also inside `wait_for_pod_ready`) succeeds, the trace
contains no control-plane call at all. -/
theorem ensure_fast_path_reaches_ready (env : Env) (auto_start : Bool)
    (h : env.probeFast = true) :
    (ensure_pod_running env auto_start).1 = true ∧
    (env.probeReady = true →
      ∀ e ∈ (ensure_pod_running env auto_start).2,
        e ≠ Event.cpDescribe ∧ e ≠ Event.cpStart ∧ e ≠ Event.cpStop) := by
  constructor
  · simp [ensure_pod_running, h]
  · intro hr e he
    have ht : (ensure_pod_running env auto_start).2 = [Event.probe true, Event.probe true] := by
      simp [ensure_pod_running, wait_for_pod_ready, h, hr]
    rw [ht] at he
    rcases List.mem_cons.mp he with rfl | h2
    · exact ⟨by simp, by simp, by simp⟩
    · rcases List.mem_cons.mp h2 with rfl | h3
      · exact ⟨by simp, by simp, by simp⟩
      · simp at h3

/-- C5, witness: a reachable worker reaches ready without a control-plane
start call. -/
theorem ensure_fast_path_reaches_ready_w :
    (ensure_pod_running envUp false).1 = true ∧
    Event.cpStart ∉ (ensure_pod_running envUp false).2 := by
  have h := ensure_fast_path_reaches_ready envUp false rfl
  exact ⟨h.1, fun hm => (h.2 rfl Event.cpStart hm).2.1 rfl⟩

/-- C4. For every argument whose stripped text does not start with
`/workspace`, `clear_remote_directory` returns failure and issues no SSH
command at all (the trace contains no `sshCmd` event, so no remote
mutation is attempted). -/
theorem clear_outside_workspace_rejected (env : Env) (p : String)
    (h : pyStartsWith (pyStrip p) "/workspace" = false) :
    (clear_remote_directory env p).1 = false ∧
    ∀ c, Event.sshCmd c ∉ (clear_remote_directory env p).2 := by
  rcases hE : ensure_pod_running env false with ⟨ok, tr⟩
  have hl := ensure_false_events_lifecycle env ok tr hE
  have hC : clear_remote_directory env p = (false, tr) := by
    cases ok with
    | false => simp [clear_remote_directory, hE]
    | true => simp [clear_remote_directory, hE, h]
  rw [hC]
  exact ⟨rfl, fun c hm => by have := hl _ hm; simp [Event.isLifecycle] at this⟩

/-- C4, witness: `/tmp/x` is rejected and its removal command is never
issued. -/
theorem clear_outside_workspace_rejected_w :
    (clear_remote_directory envUp "/tmp/x").1 = false ∧
    Event.sshCmd (buildClearCmd "/tmp/x") ∉ (clear_remote_directory envUp "/tmp/x").2 := by
  have h := clear_outside_workspace_rejected envUp "/tmp/x" (by decide)
  exact ⟨h.1, h.2 _⟩

/-- C10. The workspace guard is a literal string-prefix test on the
stripped path: every path whose stripped text starts with `/workspace`
passes the guard, so the mkdir-and-remove-contents command for it is
issued and its outcome becomes the return value. The witness instantiates
this with the sibling path `/workspace-old`, which is not under
`/workspace` yet is accepted. -/
theorem clear_prefix_sibling_accepted (env : Env) (p : String)
    (h0 : env.probeFast = true)
    (h : pyStartsWith (pyStrip p) "/workspace" = true) :
    (clear_remote_directory env p).1 = (runCmd env (buildClearCmd (pyStrip p))).1 ∧
    Event.sshCmd (buildClearCmd (pyStrip p)) ∈ (clear_remote_directory env p).2 := by
  have hE : (ensure_pod_running env false).1 = true := by simp [ensure_pod_running, h0]
  rcases hEp : ensure_pod_running env false with ⟨ok, tr⟩
  rw [hEp] at hE
  simp only at hE
  subst hE
  have hC : clear_remote_directory env p =
      ((runCmd env (buildClearCmd (pyStrip p))).1,
        tr ++ [Event.sshCmd (buildClearCmd (pyStrip p))]) := by
    simp [clear_remote_directory, hEp, h]
  rw [hC]
  exact ⟨rfl, by simp⟩

/-- C10, witness: the sibling path `/workspace-old` passes the prefix
guard and its contents-removal command is issued. -/
theorem clear_prefix_sibling_accepted_w :
    pyStartsWith (pyStrip "/workspace-old") "/workspace" = true ∧
    Event.sshCmd (buildClearCmd (pyStrip "/workspace-old")) ∈
      (clear_remote_directory envUp "/workspace-old").2 :=
  ⟨by decide, (clear_prefix_sibling_accepted envUp "/workspace-old" rfl (by decide)).2⟩

/-- C8. When the remote directory does not exist — the single existence
check fails or its stdout does not contain `OK` — `download_and_extract_outputs`
returns failure, the only SSH command ever issued is that check (so no
archive is created), and no local batch directory is created. -/
theorem fetch_missing_remote_dir_fails_fast (env : Env) (rd lb pre ts : String)
    (h0 : env.probeFast = true)
    (hc : (runCmd env (checkCmd (shq (pyStrip rd)))).1 = false ∨
          pyIn "OK" (runCmd env (checkCmd (shq (pyStrip rd)))).2.1 = false) :
    (download_and_extract_outputs env rd lb pre ts).1 = none ∧
    (∀ c, Event.sshCmd c ∈ (download_and_extract_outputs env rd lb pre ts).2 →
        c = checkCmd (shq (pyStrip rd))) ∧
    ∀ q, Event.mkLocalDir q ∉ (download_and_extract_outputs env rd lb pre ts).2 := by
  have hE : (ensure_pod_running env false).1 = true := by simp [ensure_pod_running, h0]
  rcases hEp : ensure_pod_running env false with ⟨ok, tr⟩
  rw [hEp] at hE
  simp only at hE
  subst hE
  have hl := ensure_false_events_lifecycle env true tr hEp
  have hcb : (!(runCmd env (checkCmd (shq (pyStrip rd)))).1 ||
      !(pyIn "OK" (runCmd env (checkCmd (shq (pyStrip rd)))).2.1)) = true := by
    rcases hc with hc | hc <;> simp [hc]
  have hD : download_and_extract_outputs env rd lb pre ts =
      (none, tr ++ [Event.sshCmd (checkCmd (shq (pyStrip rd)))]) := by
    simp [download_and_extract_outputs, hEp, hcb]
  rw [hD]
  refine ⟨rfl, ?_, ?_⟩
  · intro c hm
    simp only [List.mem_append, List.mem_singleton] at hm
    rcases hm with hm | hm
    · have := hl _ hm
      simp [Event.isLifecycle] at this
    · simpa using hm
  · intro q hm
    simp only [List.mem_append, List.mem_singleton] at hm
    rcases hm with hm | hm
    · have := hl _ hm
      simp [Event.isLifecycle] at this
    · exact absurd hm (by simp)

/-- C8, witness: a worker whose existence check prints `MISSING` — the
fetch fails and the timestamped local batch directory is never created. -/
theorem fetch_missing_remote_dir_fails_fast_w :
    (download_and_extract_outputs envMissing "/workspace/data/out" "data/output_images"
        "facial_outputs" "20260101_000000").1 = none ∧
    Event.mkLocalDir "data/output_images/batch_20260101_000000" ∉
      (download_and_extract_outputs envMissing "/workspace/data/out" "data/output_images"
        "facial_outputs" "20260101_000000").2 := by
  have h := fetch_missing_remote_dir_fails_fast envMissing "/workspace/data/out"
    "data/output_images" "facial_outputs" "20260101_000000" rfl (Or.inr (by decide))
  exact ⟨h.1, h.2.2 _⟩

/-- C2, counterexample. A download-path run in which the remote archive is
created (the tar command is issued and succeeds) but the SCP download
then fails: the operation returns failure and its trace contains no
`rm -f` of the remote archive — the RemoteArchive is not deleted by the
end of the failed transfer operation, contrary to the claimed invariant. -/
theorem fetch_failed_download_leaks_remote_archive :
    ((download_and_extract_outputs envOkNoDownload "/workspace/data/out" "data/output_images"
        "facial_outputs" "20260101_000000").1 = none) ∧
    (runCmd envOkNoDownload
        (tarCmd "OK" (remoteArchiveName "facial_outputs" "20260101_000000") "OK")).1 = true ∧
    Event.sshCmd (tarCmd "OK" (remoteArchiveName "facial_outputs" "20260101_000000") "OK") ∈
      (download_and_extract_outputs envOkNoDownload "/workspace/data/out" "data/output_images"
        "facial_outputs" "20260101_000000").2 ∧
    Event.sshCmd ("rm -f " ++ remoteArchiveName "facial_outputs" "20260101_000000") ∉
      (download_and_extract_outputs envOkNoDownload "/workspace/data/out" "data/output_images"
        "facial_outputs" "20260101_000000").2 :=
  ⟨by decide, by decide, by decide, by decide⟩

/-- C2, amended. On the download path the RemoteArchive delete command is
issued (best-effort) whenever the operation as a whole succeeds; when the
operation fails after archive creation (download or local extraction
failure) the remote archive is left behind, as the counterexample shows. -/
theorem fetch_success_deletes_remote_archive (env : Env) (rd lb pre ts : String)
    (h : (download_and_extract_outputs env rd lb pre ts).1.isSome = true) :
    Event.sshCmd ("rm -f " ++ remoteArchiveName pre ts) ∈
      (download_and_extract_outputs env rd lb pre ts).2 := by
  rcases hR : download_and_extract_outputs env rd lb pre ts with ⟨r, t⟩
  rw [hR] at h
  simp only at h ⊢
  simp only [download_and_extract_outputs] at hR
  repeat' split at hR
  all_goals (injection hR with h1 h2; subst h2; rw [← h1] at h; simp at h)
  simp [List.mem_append]

/-- C2, witness: a fully successful download run issues the remote archive
delete. -/
theorem fetch_success_deletes_remote_archive_w :
    Event.sshCmd ("rm -f " ++ remoteArchiveName "facial_outputs" "20260101_000000") ∈
      (download_and_extract_outputs envOkFull "/workspace/data/out" "data/output_images"
        "facial_outputs" "20260101_000000").2 :=
  fetch_success_deletes_remote_archive envOkFull "/workspace/data/out" "data/output_images"
    "facial_outputs" "20260101_000000" (by decide)

end RunPod
